import Mathlib

/-!
Shallow embedding of the error-classification and retry subsystem of the
Google Ads MCP server (`src/error_handler.py`), together with theorems
settling the specification claims about it.

Modelling conventions:
* A protobuf-style hierarchical error code is embedded as the ordered list
  of its (field name, field value) pairs, in the order Python's `dir()`
  enumerates them; the default / unset sentinel is the empty string or the
  literal `"UNSPECIFIED"` (a falsy or sentinel value in the source).
* Exceptions are an inductive type: `googleAds` mirrors
  `GoogleAdsException`, `timeoutError` mirrors `httpx.TimeoutException`,
  `connectError` mirrors `httpx.ConnectError`, `other` is any other
  exception.
* The random jitter draw `random.uniform(0, delay * 0.1)` is modelled as an
  explicit rational parameter constrained to that interval.
* A wrapped operation is a function `Nat → Except AdsException α` giving the
  outcome of its k-th invocation (1-indexed); the retry wrapper returns the
  terminal outcome together with the number of invocations performed.
  `Except.error none` models Python's `raise None` that `with_retry` would
  hit when `max_retries = 0` (the loop body never runs).
* `handle_partial_failure` returns `Except String (BatchResult α)`: the
  `IndexError` that `field_path[0]` raises on a present but empty
  `field_path` escapes the function and is modelled as `.error`.
-/

namespace GoogleAdsMCP

/-- One classified error (`GoogleAdsError` in the source): a structured view
of one element of a `GoogleAdsException`'s failure error list. -/
structure GoogleAdsError where
  error_code : List (String × String)
  message : String
  trigger : Option String
  location : Option String
deriving Repr, DecidableEq

/-- The fixed retryable code set of `GoogleAdsError.is_retryable`. -/
def retryable_codes : List String :=
  ["INTERNAL_ERROR", "TRANSIENT_ERROR", "DEADLINE_EXCEEDED",
   "RESOURCE_EXHAUSTED", "QUOTA_ERROR"]

/-- `GoogleAdsError.is_retryable`: scans every field of the error-code
structure and returns true iff some field value lies in the retryable set. -/
def GoogleAdsError.is_retryable (e : GoogleAdsError) : Bool :=
  e.error_code.any (fun p => retryable_codes.contains p.2)

/-- `GoogleAdsError.get_error_type`: the first field whose value is set
(truthy, i.e. nonempty) and not the `"UNSPECIFIED"` sentinel, formatted
`"<field>.<value>"`; `"UNKNOWN_ERROR"` when no such field exists. -/
def GoogleAdsError.get_error_type (e : GoogleAdsError) : String :=
  match e.error_code.find? (fun p => p.2 != "" && p.2 != "UNSPECIFIED") with
  | some p => p.1 ++ "." ++ p.2
  | none => "UNKNOWN_ERROR"

/-- `GoogleAdsError.get_documentation_url`: derives a reference URL from the
category portion of the error type, lowercased and hyphenated. -/
def GoogleAdsError.get_documentation_url (e : GoogleAdsError) : Option String :=
  let t := e.get_error_type
  if t.contains '.' then
    let category := (t.splitOn ".").headD ""
    some ("https://developers.google.com/google-ads/api/reference/rpc/v20/errors#"
      ++ (category.toLower.replace "_" "-"))
  else
    none

/-- `GoogleAdsError.__str__`: the human-readable rendering used for batch
failure entries. -/
def GoogleAdsError.render (e : GoogleAdsError) : String :=
  let parts := ["Error: " ++ e.get_error_type]
  let parts := parts ++ (if e.message != "" then ["Message: " ++ e.message] else [])
  let parts := parts ++
    (match e.trigger with
     | some t => if t != "" then ["Trigger: " ++ t] else []
     | none => [])
  let parts := parts ++
    (match e.location with
     | some l => if l != "" then ["Location: " ++ l] else []
     | none => [])
  String.intercalate " | " parts

/-- The data of a `GoogleAdsException` the subsystem reads: the failure's
error list and the optional request id. -/
structure GoogleAdsExceptionData where
  errors : List GoogleAdsError
  request_id : Option String
deriving Repr, DecidableEq

/-- The exceptions the retry subsystem distinguishes. -/
inductive AdsException where
  | googleAds (data : GoogleAdsExceptionData)
  | timeoutError (msg : String)
  | connectError (msg : String)
  | other (msg : String)
deriving Repr, DecidableEq

/-- `ErrorHandler` configuration (`max_retries`, `base_delay`): Python
defaults are 3 and 5.0. -/
structure ErrorHandler where
  max_retries : Nat := 3
  base_delay : ℚ := 5
deriving Repr, DecidableEq

/-- `ErrorHandler.parse_exception`: one `GoogleAdsError` per entry of the
exception's failure error list (the wrapping is the identity in this
embedding). -/
def ErrorHandler.parse_exception (_h : ErrorHandler)
    (ex : GoogleAdsExceptionData) : List GoogleAdsError :=
  ex.errors

/-- `ErrorHandler.should_retry`: a `GoogleAdsException` is retried iff some
classified error is retryable; transport timeout/connect errors are retried
unconditionally; everything else is not retried. -/
def ErrorHandler.should_retry (h : ErrorHandler) (e : AdsException) : Bool :=
  match e with
  | .googleAds data => (h.parse_exception data).any (fun er => er.is_retryable)
  | .timeoutError _ => true
  | .connectError _ => true
  | .other _ => false

/-- `ErrorHandler.get_retry_delay`: exponential backoff
`base_delay * 2^(attempt-1)` plus the sampled jitter, capped at 60 seconds.
The source draws `jitter = random.uniform(0, delay * 0.1)`; here the draw is
the explicit parameter `jitter`. -/
def ErrorHandler.get_retry_delay (h : ErrorHandler) (attempt : Nat)
    (jitter : ℚ) : ℚ :=
  min (h.base_delay * 2 ^ (attempt - 1) + jitter) 60

/-- Admissibility of a jitter draw for `get_retry_delay`: the source samples
uniformly from `[0, delay * 0.1]`. -/
def jitterAdmissible (h : ErrorHandler) (attempt : Nat) (jitter : ℚ) : Prop :=
  0 ≤ jitter ∧ jitter ≤ h.base_delay * 2 ^ (attempt - 1) * (1 / 10)

/-- The retry loop of `ErrorHandler.with_retry`: `attempt` is the current
attempt number, the second argument the remaining loop iterations, `last`
the last exception seen. Returns the terminal outcome paired with the number
of invocations performed from this point on. -/
def ErrorHandler.retryLoop {α : Type} (h : ErrorHandler)
    (op : Nat → Except AdsException α) :
    Nat → Nat → Option AdsException → Except (Option AdsException) α × Nat
  | _, 0, last => (.error last, 0)
  | attempt, r + 1, _last =>
    match op attempt with
    | .ok v => (.ok v, 1)
    | .error e =>
      if h.should_retry e then
        let res := h.retryLoop op (attempt + 1) r (some e)
        (res.1, res.2 + 1)
      else
        (.error (some e), 1)

/-- `ErrorHandler.with_retry` applied to an operation: runs the loop for
attempts `1 .. max_retries`, starting with no last exception; returns the
terminal outcome and the total number of invocations. -/
def ErrorHandler.with_retry {α : Type} (h : ErrorHandler)
    (op : Nat → Except AdsException α) :
    Except (Option AdsException) α × Nat :=
  h.retryLoop op 1 h.max_retries none

/-- One entry of the formatted error envelope (`error_info` in the source);
`documentation_url = none` models the key being absent. -/
structure ErrorInfo where
  type : String
  message : String
  trigger : Option String
  location : Option String
  is_retryable : Bool
  documentation_url : Option String
deriving Repr, DecidableEq

/-- The envelope `ErrorHandler.format_error_response` returns. -/
structure FormattedResponse where
  success : Bool
  error_count : Nat
  errors : List ErrorInfo
  is_retryable : Bool
  request_id : Option String
deriving Repr, DecidableEq

/-- `ErrorHandler.format_error_response`: classifies all contained errors and
builds the structured response envelope. -/
def ErrorHandler.format_error_response (h : ErrorHandler)
    (ex : GoogleAdsExceptionData) (include_docs : Bool) : FormattedResponse :=
  let errors := h.parse_exception ex
  { success := false
    error_count := errors.length
    errors := errors.map (fun e =>
      { type := e.get_error_type
        message := e.message
        trigger := e.trigger
        location := e.location
        is_retryable := e.is_retryable
        documentation_url :=
          if include_docs then e.get_documentation_url else none })
    is_retryable := errors.any (fun e => e.is_retryable)
    request_id := ex.request_id }

/-- One error entry of a batch response's partial-failure structure:
`field_path` models the optional `field_path` attribute (a list whose first
element, when present, is the failed item's index), the remaining fields are
what `GoogleAdsError.__init__` reads off the entry. -/
structure BatchError where
  field_path : Option (List (Option Nat))
  error_code : List (String × String)
  message : String
  trigger : Option String
  location : Option String
deriving Repr, DecidableEq

/-- The classified view of a batch error entry, as built by
`GoogleAdsError(error)` inside `handle_partial_failure`. -/
def BatchError.toClassified (e : BatchError) : GoogleAdsError :=
  { error_code := e.error_code
    message := e.message
    trigger := e.trigger
    location := e.location }

/-- The index of a batch failure entry:
`getattr(error, "field_path", [None])[0] if hasattr(error, "field_path")
else None`. A present but empty `field_path` makes `field_path[0]` raise
`IndexError`; that escaping exception is `.error "IndexError"`. -/
def BatchError.failureIndex (e : BatchError) : Except String (Option Nat) :=
  match e.field_path with
  | none => .ok none
  | some [] => .error "IndexError"
  | some (i :: _) => .ok i

/-- A batch response as `handle_partial_failure` reads it:
`partial_failure_error = some errs` models a present and truthy
`partial_failure_error` attribute carrying error entries `errs`;
`results = some items` models a present `results` attribute. -/
structure BatchResponse (α : Type) where
  partial_failure_error : Option (List BatchError)
  results : Option (List α)
deriving Repr, DecidableEq

/-- One entry of the `failures` list of `handle_partial_failure`. -/
structure FailureInfo where
  index : Option Nat
  error : String
deriving Repr, DecidableEq

/-- The envelope `ErrorHandler.handle_partial_failure` returns. -/
structure BatchResult (α : Type) where
  success : Bool
  partial_failure : Bool
  results : List α
  failures : List FailureInfo
deriving Repr, DecidableEq

/-- The `failures` list the loop of `handle_partial_failure` builds: one
`FailureInfo` per partial-failure error entry, in order, propagating the
`IndexError` an entry with a present but empty `field_path` raises. -/
def BatchResponse.parseFailures {α : Type} (resp : BatchResponse α) :
    Except String (List FailureInfo) :=
  match resp.partial_failure_error with
  | some errs =>
      errs.mapM (fun er =>
        er.failureIndex.map
          (fun idx => ({ index := idx, error := er.toClassified.render } : FailureInfo)))
  | none => .ok []

/-- `ErrorHandler.handle_partial_failure`: parses each partial-failure entry
into an index plus stringified error — an entry with a present but empty
`field_path` makes the whole call raise `IndexError` instead of returning —
and keeps each result item whose position is not among the failure indices.
`success` is set to `True` at construction and never changed. -/
def ErrorHandler.handle_partial_failure {α : Type} (_h : ErrorHandler)
    (resp : BatchResponse α) : Except String (BatchResult α) :=
  match resp.parseFailures with
  | .error s => .error s
  | .ok failures =>
    let results : List α :=
      match resp.results with
      | some items =>
          (items.enum.filter
            (fun p => ! failures.any (fun f => f.index == some p.1))).map
            (fun p => p.2)
      | none => []
    .ok { success := true
          partial_failure := resp.partial_failure_error.isSome
          results := results
          failures := failures }

/-! ### Concrete example values used by witnesses -/

/-- A retryable classified error: `{code: RESOURCE_EXHAUSTED, message:
"rate limited"}` encoded under the `quota_error` sub-field. -/
def rateLimitedError : GoogleAdsError :=
  { error_code := [("quota_error", "RESOURCE_EXHAUSTED")]
    message := "rate limited"
    trigger := none
    location := none }

/-- The same error code as `rateLimitedError` with different metadata. -/
def rateLimitedError2 : GoogleAdsError :=
  { error_code := [("quota_error", "RESOURCE_EXHAUSTED")]
    message := "too many requests"
    trigger := some "req"
    location := none }

/-- A non-retryable classified error (an authentication failure). -/
def authError : GoogleAdsError :=
  { error_code := [("authentication_error", "CUSTOMER_NOT_FOUND")]
    message := "customer not found"
    trigger := none
    location := none }

/-- A `GoogleAdsException` containing one retryable error. -/
def retryableEx : AdsException :=
  .googleAds { errors := [rateLimitedError], request_id := some "req-1" }

/-- A `GoogleAdsException` containing one non-retryable error. -/
def nonRetryableEx : AdsException :=
  .googleAds { errors := [authError], request_id := some "req-2" }

/-- A batch error entry failing the item at the given index. -/
def sampleBatchError (i : Nat) : BatchError :=
  { field_path := some [some i]
    error_code := [("request_error", "INVALID_ARGUMENT")]
    message := "bad item"
    trigger := none
    location := none }

/-- A batch response with 5 results and failures at indices 1 and 3. -/
def sampleBatchResponse : BatchResponse Nat :=
  { partial_failure_error := some [sampleBatchError 1, sampleBatchError 3]
    results := some [10, 11, 12, 13, 14] }

/-- The envelope `handle_partial_failure` returns on
`sampleBatchResponse`. -/
def sampleBatchResult : BatchResult Nat :=
  { success := true
    partial_failure := true
    results := [10, 12, 14]
    failures :=
      [{ index := some 1
         error := "Error: request_error.INVALID_ARGUMENT | Message: bad item" },
       { index := some 3
         error := "Error: request_error.INVALID_ARGUMENT | Message: bad item" }] }

/-- A batch error entry with a present but empty `field_path`: on it the
source's `field_path[0]` raises `IndexError`. -/
def emptyPathBatchError : BatchError :=
  { field_path := some []
    error_code := [("request_error", "INVALID_ARGUMENT")]
    message := "bad item"
    trigger := none
    location := none }

/-- `handle_partial_failure` on a response containing an
empty-`field_path` entry propagates the `IndexError` and returns no
envelope. -/
theorem handle_partial_failure_empty_path_raises :
    ErrorHandler.handle_partial_failure {}
        ({ partial_failure_error := some [emptyPathBatchError]
           results := some [10] } : BatchResponse Nat)
      = .error "IndexError" := rfl

/-! ### Helper lemmas about the retry loop -/

/-- With at least one remaining attempt, the loop performs at least one
invocation. -/
theorem retryLoop_calls_pos {α : Type} (h : ErrorHandler)
    (op : Nat → Except AdsException α) (attempt r : Nat)
    (last : Option AdsException) (hr : 1 ≤ r) :
    1 ≤ (h.retryLoop op attempt r last).2 := by
  match r, hr with
  | r + 1, _ =>
    rw [ErrorHandler.retryLoop]
    cases hop : op attempt with
    | ok v => simp
    | error e =>
      by_cases hsr : h.should_retry e = true
      · simp [hsr]
      · simp [hsr]

/-- With at least one remaining attempt, the loop's terminal outcome is the
outcome of the last invocation it made: either the value some invocation
returned, or `error (some e)` where `e` is the exception the last invocation
raised. -/
theorem retryLoop_last_call {α : Type} (h : ErrorHandler)
    (op : Nat → Except AdsException α) :
    ∀ (r attempt : Nat) (last : Option AdsException), 1 ≤ r →
    (∃ v, (h.retryLoop op attempt r last).1 = .ok v ∧
      op (attempt + (h.retryLoop op attempt r last).2 - 1) = .ok v) ∨
    (∃ e, (h.retryLoop op attempt r last).1 = .error (some e) ∧
      op (attempt + (h.retryLoop op attempt r last).2 - 1) = .error e) := by
  intro r
  induction r with
  | zero => intro attempt last hr; omega
  | succ r ih =>
    intro attempt last _
    rw [ErrorHandler.retryLoop]
    cases hop : op attempt with
    | ok v =>
      left
      exact ⟨v, rfl, by simpa using hop⟩
    | error e =>
      by_cases hsr : h.should_retry e = true
      · rcases Nat.eq_zero_or_pos r with hz | hpos
        · subst hz
          right
          refine ⟨e, by simp [hsr, ErrorHandler.retryLoop], ?_⟩
          simpa [hsr, ErrorHandler.retryLoop] using hop
        · rcases ih (attempt + 1) (some e) hpos with ⟨v, hres, hcall⟩ | ⟨e2, hres, hcall⟩
          · left
            refine ⟨v, by simp [hsr, hres], ?_⟩
            have hc := retryLoop_calls_pos h op (attempt + 1) r (some e) hpos
            simp only [hsr, if_true]
            have : attempt + ((h.retryLoop op (attempt + 1) r (some e)).2 + 1) - 1
                = attempt + 1 + (h.retryLoop op (attempt + 1) r (some e)).2 - 1 := by
              omega
            simpa [this] using hcall
          · right
            refine ⟨e2, by simp [hsr, hres], ?_⟩
            simp only [hsr, if_true]
            have : attempt + ((h.retryLoop op (attempt + 1) r (some e)).2 + 1) - 1
                = attempt + 1 + (h.retryLoop op (attempt + 1) r (some e)).2 - 1 := by
              omega
            simpa [this] using hcall
      · right
        refine ⟨e, by simp [hsr], ?_⟩
        simpa [hsr] using hop

/-- When every invocation raises a retryable exception, the loop performs
all `r` remaining invocations and ends with the exception of the last one. -/
theorem retryLoop_all_fail {α : Type} (h : ErrorHandler)
    (op : Nat → Except AdsException α) (err : Nat → AdsException)
    (hop : ∀ k, op k = .error (err k))
    (hret : ∀ k, h.should_retry (err k) = true) :
    ∀ (r attempt : Nat) (last : Option AdsException), 1 ≤ r →
    h.retryLoop op attempt r last = (.error (some (err (attempt + r - 1))), r) := by
  intro r
  induction r with
  | zero => intro attempt last hr; omega
  | succ r ih =>
    intro attempt last _
    rw [ErrorHandler.retryLoop, hop attempt]
    simp only [hret attempt, if_true]
    rcases Nat.eq_zero_or_pos r with hz | hpos
    · subst hz
      simp [ErrorHandler.retryLoop]
    · rw [ih (attempt + 1) (some (err attempt)) hpos]
      have : attempt + 1 + r - 1 = attempt + (r + 1) - 1 := by omega
      simp [this]

/-- When the first `d` invocations (from `attempt`) raise retryable
exceptions and invocation `attempt + d` succeeds with `v`, the loop returns
`v` after exactly `d + 1` invocations, provided enough attempts remain. -/
theorem retryLoop_first_success {α : Type} (h : ErrorHandler)
    (op : Nat → Except AdsException α) (v : α) :
    ∀ (d r attempt : Nat) (last : Option AdsException), d + 1 ≤ r →
    (∀ j, attempt ≤ j → j < attempt + d →
      ∃ e, op j = .error e ∧ h.should_retry e = true) →
    op (attempt + d) = .ok v →
    h.retryLoop op attempt r last = (.ok v, d + 1) := by
  intro d
  induction d with
  | zero =>
    intro r attempt last hr _ hsucc
    match r, hr with
    | r + 1, _ =>
      simp only [Nat.add_zero] at hsucc
      rw [ErrorHandler.retryLoop, hsucc]
  | succ d ih =>
    intro r attempt last hr hfail hsucc
    match r, hr with
    | r + 1, hr =>
      obtain ⟨e, hope, hrete⟩ := hfail attempt (le_refl _) (by omega)
      rw [ErrorHandler.retryLoop, hope]
      simp only [hrete, if_true]
      rw [ih r (attempt + 1) (some e) (by omega)
        (fun j hj1 hj2 => hfail j (by omega) (by omega))
        (by simpa [Nat.add_right_comm attempt 1 d] using hsucc)]

/-! ### Helper lemmas about field scanning and batch filtering -/

/-- Characterization of the first-set-field scan: either the code list splits
around a first field whose value is set and not the sentinel, or every field
is default-valued and the scan finds nothing. -/
theorem find_first_set_field (l : List (String × String)) :
    (∃ p l1 l2, l = l1 ++ p :: l2 ∧ p.2 ≠ "" ∧ p.2 ≠ "UNSPECIFIED" ∧
      (∀ q ∈ l1, q.2 = "" ∨ q.2 = "UNSPECIFIED") ∧
      l.find? (fun p => p.2 != "" && p.2 != "UNSPECIFIED") = some p) ∨
    ((∀ q ∈ l, q.2 = "" ∨ q.2 = "UNSPECIFIED") ∧
      l.find? (fun p => p.2 != "" && p.2 != "UNSPECIFIED") = none) := by
  induction l with
  | nil => right; simp
  | cons a t ih =>
    by_cases ha : (a.2 != "" && a.2 != "UNSPECIFIED") = true
    · left
      refine ⟨a, [], t, rfl, ?_, ?_, by simp, ?_⟩
      · simpa using (Bool.and_eq_true_iff.mp ha).1
      · simpa using (Bool.and_eq_true_iff.mp ha).2
      · simp [List.find?_cons, ha]
    · have hadef : a.2 = "" ∨ a.2 = "UNSPECIFIED" := by
        rcases Bool.and_eq_false_iff.mp (Bool.not_eq_true _ |>.mp ha) with h | h
        · left; simpa using h
        · right; simpa using h
      rcases ih with ⟨p, l1, l2, heq, h1, h2, h3, hfind⟩ | ⟨hall, hfind⟩
      · left
        refine ⟨p, a :: l1, l2, by rw [heq]; rfl, h1, h2, ?_, ?_⟩
        · intro q hq
          rcases List.mem_cons.mp hq with hq | hq
          · subst hq; exact hadef
          · exact h3 q hq
        · rw [List.find?_cons]
          simp only [ha]
          exact hfind
      · right
        refine ⟨?_, ?_⟩
        · intro q hq
          rcases List.mem_cons.mp hq with hq | hq
          · subst hq; exact hadef
          · exact hall q hq
        · rw [List.find?_cons]
          simp only [ha]
          exact hfind

/-- Filtering an enumerated list by a predicate on positions and keeping the
values equals filter-mapping positions against the original list. -/
theorem filtered_results_eq {α : Type} (pred : Nat → Bool) :
    ∀ (items : List α) (s : Nat),
    ((List.enumFrom s items).filter (fun p => pred p.1)).map (fun p => p.2) =
    (List.range items.length).filterMap
      (fun i => if pred (s + i) then items[i]? else none) := by
  intro items
  induction items with
  | nil => intro s; simp
  | cons a t ih =>
    intro s
    have hcomp : ((fun i => if pred (s + i) then (a :: t)[i]? else none) ∘ Nat.succ)
        = fun i => if pred (s + 1 + i) then t[i]? else none := by
      funext i
      have h1 : s + (i + 1) = s + 1 + i := by omega
      simp [Function.comp, Nat.succ_eq_add_one, h1]
    rw [List.length_cons, List.range_succ_eq_map, List.filterMap_cons,
      List.filterMap_map, hcomp, ← ih (s + 1)]
    by_cases hp : pred s = true
    · simp [List.enumFrom_cons, List.filter_cons, hp]
    · simp [List.enumFrom_cons, List.filter_cons, hp]

/-- When `handle_partial_failure` returns an envelope (no entry raised
`IndexError`) and the response has a `results` attribute with `items`, the
envelope's `results` field is the order-preserving filter of the enumerated
items by non-membership of the position among the failure indices, and its
`success` field is true. -/
theorem handle_partial_failure_ok_results {α : Type} (h : ErrorHandler)
    (resp : BatchResponse α) (items : List α) (result : BatchResult α)
    (hres : resp.results = some items)
    (hok : h.handle_partial_failure resp = .ok result) :
    (result.results =
      (items.enum.filter (fun p =>
        ! result.failures.any
          (fun f => f.index == some p.1))).map (fun p => p.2)) ∧
    result.success = true := by
  unfold ErrorHandler.handle_partial_failure at hok
  cases hfe : resp.parseFailures with
  | error s =>
    rw [hfe] at hok
    simp at hok
  | ok failures =>
    rw [hfe, hres] at hok
    simp only [Except.ok.injEq] at hok
    subst hok
    exact ⟨rfl, rfl⟩

/-! ### Claim theorems -/

/-- C1: for an operation whose first invocation raises an exception that
`should_retry` classifies as non-retryable, the retry wrapper invokes the
operation exactly once and its terminal outcome is that same exception. -/
theorem with_retry_fail_fast {α : Type} (h : ErrorHandler)
    (op : Nat → Except AdsException α) (e : AdsException)
    (hop : op 1 = .error e) (hnr : h.should_retry e = false)
    (hn : 1 ≤ h.max_retries) :
    h.with_retry op = (.error (some e), 1) := by
  obtain ⟨r, hr⟩ : ∃ r, h.max_retries = r + 1 := ⟨h.max_retries - 1, by omega⟩
  unfold ErrorHandler.with_retry
  rw [hr, ErrorHandler.retryLoop, hop]
  simp [hnr]

/-- Witness for C1: the default handler, on an operation that always raises
a non-retryable `GoogleAdsException`, performs one invocation and ends with
that exception. -/
theorem with_retry_fail_fast_witness :
    ErrorHandler.with_retry {}
        (fun _ => (.error nonRetryableEx : Except AdsException Nat))
      = (.error (some nonRetryableEx), 1) :=
  with_retry_fail_fast {} (fun _ => .error nonRetryableEx) nonRetryableEx
    rfl (by decide) (by decide)

/-- C2: for an operation that raises a retryable exception on every
invocation and a handler with `max_retries = n ≥ 1`, the retry wrapper
invokes the operation exactly `n` times and ends with the exception of the
`n`-th invocation; and for every operation, the terminal outcome is either a
value returned by the last invocation made or the exception raised by the
last invocation made. -/
theorem with_retry_exhaustion {α : Type} (h : ErrorHandler)
    (op : Nat → Except AdsException α) (err : Nat → AdsException)
    (hop : ∀ k, op k = .error (err k))
    (hret : ∀ k, h.should_retry (err k) = true)
    (hn : 1 ≤ h.max_retries) :
    h.with_retry op = (.error (some (err h.max_retries)), h.max_retries) ∧
    ∀ (op2 : Nat → Except AdsException α),
      (∃ v, (h.with_retry op2).1 = .ok v ∧
        op2 (h.with_retry op2).2 = .ok v) ∨
      (∃ e2, (h.with_retry op2).1 = .error (some e2) ∧
        op2 (h.with_retry op2).2 = .error e2) := by
  constructor
  · unfold ErrorHandler.with_retry
    rw [retryLoop_all_fail h op err hop hret h.max_retries 1 none hn]
    have h1 : 1 + h.max_retries - 1 = h.max_retries := by omega
    rw [h1]
  · intro op2
    have hlc := retryLoop_last_call h op2 h.max_retries 1 none hn
    have h2 : 1 + (h.retryLoop op2 1 h.max_retries none).2 - 1
        = (h.retryLoop op2 1 h.max_retries none).2 := by omega
    rw [h2] at hlc
    exact hlc

/-- The sample retryable exception is classified retryable by the default
handler. -/
theorem retryableEx_should_retry :
    ErrorHandler.should_retry {} retryableEx = true := by decide

/-- Witness for C2: the default handler (3 attempts) on an operation that
always raises a retryable exception invokes it 3 times and ends with that
exception. -/
theorem with_retry_exhaustion_witness :
    ErrorHandler.with_retry {}
        (fun _ => (.error retryableEx : Except AdsException Nat))
      = (.error (some retryableEx), 3) :=
  (with_retry_exhaustion {} (fun _ => .error retryableEx)
    (fun _ => retryableEx) (fun _ => rfl) (fun _ => retryableEx_should_retry)
    (by decide)).1

/-- C3: when the invocations before the `k`-th raise retryable exceptions
and the `k`-th invocation succeeds with `v` (`k` within the attempt budget),
the retry wrapper returns `v` and invokes the operation exactly `k` times —
in particular, a first-call retryable failure followed by success gives the
success value after exactly two invocations. -/
theorem with_retry_success {α : Type} (h : ErrorHandler)
    (op : Nat → Except AdsException α) (k : Nat) (v : α)
    (h1 : 1 ≤ k) (hk : k ≤ h.max_retries)
    (hfail : ∀ j, 1 ≤ j → j < k →
      ∃ e, op j = .error e ∧ h.should_retry e = true)
    (hsucc : op k = .ok v) :
    h.with_retry op = (.ok v, k) := by
  unfold ErrorHandler.with_retry
  have hmain := retryLoop_first_success h op v (k - 1) h.max_retries 1 none
    (by omega) (fun j hj1 hj2 => hfail j hj1 (by omega))
    (by rwa [show 1 + (k - 1) = k from by omega])
  rwa [show k - 1 + 1 = k from by omega] at hmain

/-- Witness for C3: an operation that raises a retryable exception on the
first call and returns 42 on the second: the default handler returns 42
after exactly two invocations. -/
theorem with_retry_success_witness :
    ErrorHandler.with_retry {}
        (fun k => if k = 1 then .error retryableEx else (.ok 42 : Except AdsException Nat))
      = (.ok 42, 2) :=
  with_retry_success {}
    (fun k => if k = 1 then .error retryableEx else .ok 42) 2 42
    (by decide) (by decide)
    (fun j hj1 hj2 => by
      have hj : j = 1 := by omega
      subst hj
      exact ⟨retryableEx, rfl, by decide⟩)
    rfl

/-- C4: `is_retryable` is true iff some field of the error code holds a
non-default value (nonempty, not the `"UNSPECIFIED"` sentinel) lying in the
fixed retryable set — field scanning over the whole code structure. -/
theorem is_retryable_iff (e : GoogleAdsError) :
    e.is_retryable = true ↔
      ∃ p, p ∈ e.error_code ∧ p.2 ≠ "" ∧ p.2 ≠ "UNSPECIFIED" ∧
        p.2 ∈ retryable_codes := by
  unfold GoogleAdsError.is_retryable
  rw [List.any_eq_true]
  constructor
  · rintro ⟨p, hmem, hc⟩
    have hmem2 : p.2 ∈ retryable_codes := List.elem_iff.mp hc
    have hne : p.2 ≠ "" ∧ p.2 ≠ "UNSPECIFIED" := by
      simp only [retryable_codes, List.mem_cons, List.not_mem_nil,
        or_false] at hmem2
      rcases hmem2 with hh | hh | hh | hh | hh <;> rw [hh] <;>
        exact ⟨by decide, by decide⟩
    exact ⟨p, hmem, hne.1, hne.2, hmem2⟩
  · rintro ⟨p, hmem, _, _, hmem2⟩
    exact ⟨p, hmem, List.elem_iff.mpr hmem2⟩

/-- Witness for C4: the rate-limit error's code holds `RESOURCE_EXHAUSTED`
under its `quota_error` field, so `is_retryable` is true. -/
theorem is_retryable_iff_witness :
    rateLimitedError.is_retryable = true :=
  (is_retryable_iff rateLimitedError).mpr
    ⟨("quota_error", "RESOURCE_EXHAUSTED"), by decide, by decide, by decide,
      by decide⟩

/-- C5: `should_retry` is true iff the exception is a `GoogleAdsException`
with at least one retryable classified error, or a transport-level timeout
or connection error (retryable unconditionally); every other exception gives
false. -/
theorem should_retry_iff (h : ErrorHandler) (ex : AdsException) :
    h.should_retry ex = true ↔
      ((∃ data, ex = .googleAds data ∧
          ∃ er, er ∈ data.errors ∧ er.is_retryable = true) ∨
        (∃ m, ex = .timeoutError m) ∨ (∃ m, ex = .connectError m)) := by
  cases ex with
  | googleAds data =>
    simp [ErrorHandler.should_retry, ErrorHandler.parse_exception,
      List.any_eq_true]
  | timeoutError m => simp [ErrorHandler.should_retry]
  | connectError m => simp [ErrorHandler.should_retry]
  | other m => simp [ErrorHandler.should_retry]

/-- Witness for C5: the exception wrapping the rate-limit error is
classified retryable. -/
theorem should_retry_iff_witness :
    ErrorHandler.should_retry {} retryableEx = true :=
  (should_retry_iff {} retryableEx).mpr
    (Or.inl ⟨{ errors := [rateLimitedError], request_id := some "req-1" },
      rfl, rateLimitedError, by decide, by decide⟩)

/-- C6: for every attempt `k ≥ 1` and admissible jitter draw, the backoff
delay is `base_delay * 2^(k-1)` plus the draw, clamped at the 60-second cap;
with a zero draw the delays are non-decreasing in the attempt number, and
once the uncapped delay reaches the cap every further delay equals the
cap. -/
theorem get_retry_delay_spec (h : ErrorHandler) (hb : 0 < h.base_delay) :
    (∀ (k : Nat) (j : ℚ), 1 ≤ k → jitterAdmissible h k j →
      h.get_retry_delay k j = min (h.base_delay * 2 ^ (k - 1) + j) 60) ∧
    (∀ k : Nat, 1 ≤ k →
      h.get_retry_delay k 0 ≤ h.get_retry_delay (k + 1) 0) ∧
    (∀ k m : Nat, 1 ≤ k → k ≤ m → 60 ≤ h.base_delay * 2 ^ (k - 1) →
      h.get_retry_delay m 0 = 60) := by
  refine ⟨fun k j _ _ => rfl, fun k hk => ?_, fun k m hk hkm hcap => ?_⟩
  · unfold ErrorHandler.get_retry_delay
    have h2 : h.base_delay * 2 ^ (k - 1) ≤ h.base_delay * 2 ^ (k + 1 - 1) := by
      apply mul_le_mul_of_nonneg_left _ hb.le
      apply pow_le_pow_right₀ (by norm_num : (1 : ℚ) ≤ 2)
      omega
    simp only [add_zero]
    exact min_le_min h2 le_rfl
  · unfold ErrorHandler.get_retry_delay
    have h2 : (60 : ℚ) ≤ h.base_delay * 2 ^ (m - 1) := by
      refine le_trans hcap ?_
      apply mul_le_mul_of_nonneg_left _ hb.le
      apply pow_le_pow_right₀ (by norm_num : (1 : ℚ) ≤ 2)
      omega
    simp only [add_zero]
    exact min_eq_right h2

/-- Witness for C6: with the default base delay of 5 seconds and no jitter,
the delay for attempt 2 is at least the delay for attempt 1. -/
theorem get_retry_delay_spec_witness :
    ErrorHandler.get_retry_delay {} 1 0 ≤ ErrorHandler.get_retry_delay {} 2 0 :=
  (get_retry_delay_spec {} (by norm_num [ErrorHandler.base_delay])).2.1 1
    (le_refl 1)

/-- C7: `get_error_type` returns `"<field>.<value>"` for the first field of
the code structure whose value is set and not the unspecified sentinel, and
`"UNKNOWN_ERROR"` when no field is set; and both `get_error_type` and
`is_retryable` depend only on the code value (determinism). -/
theorem get_error_type_spec (e : GoogleAdsError) :
    ((∃ p l1 l2, e.error_code = l1 ++ p :: l2 ∧ p.2 ≠ "" ∧
        p.2 ≠ "UNSPECIFIED" ∧
        (∀ q ∈ l1, q.2 = "" ∨ q.2 = "UNSPECIFIED") ∧
        e.get_error_type = p.1 ++ "." ++ p.2) ∨
      ((∀ q ∈ e.error_code, q.2 = "" ∨ q.2 = "UNSPECIFIED") ∧
        e.get_error_type = "UNKNOWN_ERROR")) ∧
    (∀ e2 : GoogleAdsError, e.error_code = e2.error_code →
      e.get_error_type = e2.get_error_type ∧
        e.is_retryable = e2.is_retryable) := by
  constructor
  · rcases find_first_set_field e.error_code with
      ⟨p, l1, l2, heq, h1, h2, h3, hfind⟩ | ⟨hall, hfind⟩
    · left
      exact ⟨p, l1, l2, heq, h1, h2, h3,
        by simp [GoogleAdsError.get_error_type, hfind]⟩
    · right
      exact ⟨hall, by simp [GoogleAdsError.get_error_type, hfind]⟩
  · intro e2 hcode
    unfold GoogleAdsError.get_error_type GoogleAdsError.is_retryable
    rw [hcode]
    exact ⟨rfl, rfl⟩

/-- Witness for C7: two errors sharing the rate-limit code but differing in
message and trigger classify identically. -/
theorem get_error_type_spec_witness :
    rateLimitedError.get_error_type = rateLimitedError2.get_error_type ∧
      rateLimitedError.is_retryable = rateLimitedError2.is_retryable :=
  (get_error_type_spec rateLimitedError).2 rateLimitedError2 rfl

/-- C8: whenever `handle_partial_failure` returns an envelope for a batch
response with result items, the envelope's successful results are exactly
the items whose index is not among the failure indices, in their original
order; in particular, on the batch response with 5 results and failures at
indices 1 and 3 it returns the 3 results at indices 0, 2, 4, two failure
entries, and a set partial-failure flag. -/
theorem handle_partial_failure_spec {α : Type} (h : ErrorHandler)
    (resp : BatchResponse α) (items : List α) (result : BatchResult α)
    (hres : resp.results = some items)
    (hok : h.handle_partial_failure resp = .ok result) :
    (result.results =
      (List.range items.length).filterMap (fun i =>
        if result.failures.any (fun f => f.index == some i) then none
        else items[i]?)) ∧
    ErrorHandler.handle_partial_failure {} sampleBatchResponse
      = .ok sampleBatchResult ∧
    sampleBatchResult.results = [10, 12, 14] ∧
    sampleBatchResult.failures.length = 2 ∧
    sampleBatchResult.partial_failure = true := by
  refine ⟨?_, rfl, rfl, rfl, rfl⟩
  rw [(handle_partial_failure_ok_results h resp items result hres hok).1,
    show items.enum = List.enumFrom 0 items from rfl]
  have hbase := filtered_results_eq
    (fun i => ! result.failures.any (fun f => f.index == some i)) items 0
  beta_reduce at hbase
  rw [hbase]
  congr 1
  funext i
  simp only [Nat.zero_add]
  cases hb : result.failures.any (fun f => f.index == some i) <;> simp [hb]

/-- Witness for C8: the filtered-results equation evaluated on the concrete
5-result batch response with failures at indices 1 and 3. -/
theorem handle_partial_failure_spec_witness :
    sampleBatchResult.results =
      (List.range 5).filterMap (fun i =>
        if sampleBatchResult.failures.any (fun f => f.index == some i)
        then none
        else [10, 11, 12, 13, 14][i]?) :=
  (handle_partial_failure_spec {} sampleBatchResponse [10, 11, 12, 13, 14]
    sampleBatchResult rfl rfl).1

/-- C9: `format_error_response` always reports failure, counts one envelope
entry per classified error, and its envelope-level `is_retryable` is true
iff some classified error is retryable — the same aggregate answer
`should_retry` gives on the wrapping exception. -/
theorem format_error_response_spec (h : ErrorHandler)
    (ex : GoogleAdsExceptionData) (include_docs : Bool) :
    (h.format_error_response ex include_docs).success = false ∧
    (h.format_error_response ex include_docs).error_count
      = ex.errors.length ∧
    (h.format_error_response ex include_docs).errors.length
      = ex.errors.length ∧
    ((h.format_error_response ex include_docs).is_retryable = true ↔
      ∃ er, er ∈ ex.errors ∧ er.is_retryable = true) ∧
    (h.format_error_response ex include_docs).is_retryable
      = h.should_retry (.googleAds ex) := by
  unfold ErrorHandler.format_error_response ErrorHandler.should_retry
    ErrorHandler.parse_exception
  refine ⟨rfl, rfl, by simp, ?_, rfl⟩
  simp [List.any_eq_true]

/-- Witness for C9: the envelope for the rate-limit failure is marked
unsuccessful. -/
theorem format_error_response_spec_witness :
    (ErrorHandler.format_error_response {}
        { errors := [rateLimitedError], request_id := some "req-1" }
        true).success = false :=
  (format_error_response_spec {}
    { errors := [rateLimitedError], request_id := some "req-1" } true).1

/-- C10: every envelope `handle_partial_failure` returns has
`success = true`, including the one for a batch response whose
partial-failure indicator is set with a non-empty failures list — the
`success` field never reflects the presence of failures. -/
theorem handle_partial_failure_success_always {α : Type} (h : ErrorHandler)
    (resp : BatchResponse α) (result : BatchResult α)
    (hok : h.handle_partial_failure resp = .ok result) :
    result.success = true ∧
    (ErrorHandler.handle_partial_failure {} sampleBatchResponse).map
        (fun r => (r.success, r.partial_failure, r.failures.length))
      = .ok (true, true, 2) := by
  refine ⟨?_, rfl⟩
  unfold ErrorHandler.handle_partial_failure at hok
  cases hfe : resp.parseFailures with
  | error s =>
    rw [hfe] at hok
    simp at hok
  | ok failures =>
    rw [hfe] at hok
    simp only [Except.ok.injEq] at hok
    subst hok
    rfl

/-- Witness for C10: the envelope for the concrete partially-failed batch
response still reports success. -/
theorem handle_partial_failure_success_always_witness :
    sampleBatchResult.success = true :=
  (handle_partial_failure_success_always {} sampleBatchResponse
    sampleBatchResult rfl).1

end GoogleAdsMCP
